import Mathlib

/-!
# Shallow embedding of the kessler-game simulation core

This file embeds, over exact rational arithmetic, the parts of the
`kesslergame` Python package (src/kesslergame/) that the verified claims
are about:

* `math_utils.py`: `solve_quadratic`, `analytic_ship_movement_integration`,
  `find_first_leq_zero` (with its inner Newton loops),
* `asteroid.py`: the `Asteroid` constructor, `Asteroid.update`,
  `Asteroid.destruct`,
* `ship.py`: the kinematic part of `Ship.update` (thrust/turn-rate clamping,
  drag, the one/two-phase integration split, the speed clamp, position wrap,
  heading wrap),
* `mines.py`: `Mine.__init__` and `Mine.update`,
* `kessler_game.py`: the stop-condition selection of `KesslerGame.run` and
  the ship-asteroid / ship-ship collision resolution passes.

Modelling conventions:

* Python floats are modelled as `ℚ` (exact arithmetic); decimal literals in
  the source become the corresponding rationals.  `float('nan')` results are
  modelled by `Option`/`none`, matching how the callers treat NaN purely as
  an absence marker (`isnan` checks).
* Transcendental library functions (`math.cos`, `math.sin`, `math.sqrt`,
  `math.atan2`) and the float constant `math.pi` have no exact rational
  counterpart; they are abstracted into a `MathCtx` record of unspecified
  rational-valued functions.  All theorems below are proved for every such
  context, so nothing depends on their actual values.
* Calls to Python's `random` module are modelled by explicit rational
  arguments supplying the drawn values (one per draw the source performs).
* Python `%` on floats (always-nonnegative result for a positive modulus) is
  modelled by `pymod` via the floor function.
* `raise ValueError(...)` in a constructor is modelled by `Except String`.
-/

/-- Python's `%` on floats with the sign convention of the divisor:
`a % m = a - m * floor(a / m)`. -/
def pymod (a m : ℚ) : ℚ := a - m * ⌊a / m⌋

/-- `math.copysign x y`: the magnitude of `x` with the sign of `y`.
A `ℚ` zero corresponds to float `+0.0`, whose sign is positive. -/
def copysignQ (x y : ℚ) : ℚ := if y < 0 then -|x| else |x|

/-- The float literal `1e-12` used as epsilon throughout `ship.py` and
`math_utils.py`. -/
def eps12 : ℚ := 1 / 1000000000000

/-- The float literal `1e-15` used in `Mine.update`. -/
def eps15 : ℚ := 1 / 1000000000000000

/-- Abstraction of the transcendental functions from Python's `math` module
used by the embedded code, together with the float constant `math.pi`. -/
structure MathCtx where
  pi : ℚ
  sqrt : ℚ → ℚ
  cos : ℚ → ℚ
  sin : ℚ → ℚ
  atan2 : ℚ → ℚ → ℚ

/-! ## `mines.py`: the `Mine` sprite -/

/-- State of a `Mine` (`mines.py`).  The source also stores the constants
`fuse_time`, `detonation_time`, `mass`, `radius`, `blast_radius`,
`blast_pressure` and an `owner` back-reference on every instance; the
numeric constants are carried here, the owner is irrelevant to the claims. -/
structure Mine where
  fuse_time : ℚ
  detonation_time : ℚ
  mass : ℚ
  radius : ℚ
  blast_radius : ℚ
  blast_pressure : ℚ
  countdown_timer : ℚ
  detonating : Bool
  position : ℚ × ℚ
  velocity : ℚ × ℚ

/-- `Mine.__init__(starting_position, starting_velocity, owner)`. -/
def Mine.init (starting_position starting_velocity : ℚ × ℚ) : Mine :=
  { fuse_time := 3
    detonation_time := 1 / 4
    mass := 25
    radius := 12
    blast_radius := 150
    blast_pressure := 2000
    countdown_timer := 3    -- `self.countdown_timer = self.fuse_time`
    detonating := false
    position := starting_position
    velocity := starting_velocity }

/-- `Mine.update(delta_time)`: advances the position by the velocity, then
decrements the countdown and calls `detonate()` (which sets
`detonating = True`) once the countdown falls to `1e-15` or below. -/
def Mine.update (m : Mine) (delta_time : ℚ) : Mine :=
  let pos := (m.position.1 + m.velocity.1 * delta_time,
              m.position.2 + m.velocity.2 * delta_time)
  let countdown := m.countdown_timer - delta_time
  if countdown ≤ eps15 then
    { m with position := pos, countdown_timer := countdown, detonating := true }
  else
    { m with position := pos, countdown_timer := countdown }

/-! ## `kessler_game.py`: stop-condition selection -/

/-- The `StopReason` enum of `kessler_game.py`. -/
inductive StopReason where
  | not_stopped
  | no_ships
  | no_asteroids
  | time_expired
  | out_of_bullets
deriving DecidableEq, Repr

/-- The ammo counters of a live ship that the stop-condition check reads
(`ship.bullets_remaining`, `ship.mines_remaining`; `-1` means unlimited,
per `Ship.__init__`). -/
structure ShipAmmo where
  bullets_remaining : ℤ
  mines_remaining : ℤ
deriving DecidableEq, Repr

/-- The stop-condition cascade at the end of each frame of
`KesslerGame.run` (kessler_game.py):

* `not asteroids` → `no_asteroids`;
* `not liveships and not (len(mines) > 0 or len(bullets) > 0)` → `no_ships`;
* `not sum(bullets_remaining) > 0 and not sum(mines_remaining) and
  not (len(bullets) > 0 or len(mines) > 0) and scenario.stop_if_no_ammo`
  → `out_of_bullets`;
* `sim_time > time_limit` → `time_expired`;
* otherwise the reason stays `not_stopped`. -/
def checkStopConditions (numAsteroids : ℕ) (liveships : List ShipAmmo)
    (numBullets numMines : ℕ) (stop_if_no_ammo : Bool)
    (sim_time time_limit : ℚ) : StopReason :=
  if numAsteroids = 0 then
    .no_asteroids
  else if liveships = [] ∧ ¬(numMines > 0 ∨ numBullets > 0) then
    .no_ships
  else if ¬((liveships.map (·.bullets_remaining)).sum > 0) ∧
          (liveships.map (·.mines_remaining)).sum = 0 ∧
          ¬(numBullets > 0 ∨ numMines > 0) ∧
          stop_if_no_ammo = true then
    .out_of_bullets
  else if sim_time > time_limit then
    .time_expired
  else
    .not_stopped

/-! ## `math_utils.py`: `solve_quadratic` -/

/-- `solve_quadratic(a, b, c)` (math_utils.py).  The `(nan, nan)` returns
are modelled by `none`; every other return is a real pair.  The square root
of the discriminant is taken through the abstract `sqrtFn`. -/
def solve_quadratic (sqrtFn : ℚ → ℚ) (a b c : ℚ) : Option (ℚ × ℚ) :=
  if a = 0 then
    -- Linear case: bx + c = 0
    if b = 0 then
      if c = 0 then some (0, 0) else none
    else
      let x := -c / b
      some (x, x)
  else
    let discriminant := b * b - 4 * a * c
    if discriminant < 0 then
      -- No real solutions
      none
    else
      let q := -(1/2) * (b + copysignQ (sqrtFn discriminant) b)
      if c = 0 then
        let x1 := -b / a
        if x1 < 0 then some (x1, 0) else some (0, x1)
      else
        -- q cannot be 0 here
        let x1 := q / a
        let x2 := c / q
        if x1 ≤ x2 then some (x1, x2) else some (x2, x1)

/-! ## `math_utils.py`: `analytic_ship_movement_integration` -/

/-- `analytic_ship_movement_integration(v0, a, theta0, omega, delta_t)`
(math_utils.py): the `(dx, dy)` displacement of the ship's analytic spiral
integral, via a short-time shortcut, a Taylor branch for small `omega` and
the exact trigonometric closed form otherwise.  The float literal `0.15`
is the rational `3/20`. -/
def analytic_ship_movement_integration (ctx : MathCtx)
    (v0 a theta0 omega delta_t : ℚ) : ℚ × ℚ :=
  if |delta_t| < eps12 then
    -- Integrating over basically no time into the future
    (0, 0)
  else if |omega| < 3/20 then
    let cos_theta0 := ctx.cos theta0
    let sin_theta0 := ctx.sin theta0
    let delta_t2 := delta_t * delta_t
    let delta_t3 := delta_t2 * delta_t
    let delta_t4 := delta_t3 * delta_t
    let a_delta_t := a * delta_t
    let omega0_common := delta_t * (a_delta_t / 2 + v0)
    let omega0_deriv_common := delta_t2 * (a_delta_t / 3 + v0 / 2)
    let omega0_second_deriv_common := delta_t3 * (a_delta_t / 4 + v0 / 3)
    let omega0_third_deriv_common := delta_t4 * (a_delta_t / 5 + v0 / 4)
    let delta_x_omega0 := omega0_common * cos_theta0
    let delta_x_deriv_omega0 := -omega0_deriv_common * sin_theta0
    let delta_x_second_deriv_omega0 := -omega0_second_deriv_common * cos_theta0
    let delta_x_third_deriv_omega0 := omega0_third_deriv_common * sin_theta0
    let delta_y_omega0 := omega0_common * sin_theta0
    let delta_y_deriv_omega0 := omega0_deriv_common * cos_theta0
    let delta_y_second_deriv_omega0 := -omega0_second_deriv_common * sin_theta0
    let delta_y_third_deriv_omega0 := -omega0_third_deriv_common * cos_theta0
    (delta_x_omega0 + omega * (delta_x_deriv_omega0 +
        omega * (delta_x_second_deriv_omega0 / 2 + omega * delta_x_third_deriv_omega0 / 6)),
     delta_y_omega0 + omega * (delta_y_deriv_omega0 +
        omega * (delta_y_second_deriv_omega0 / 2 + omega * delta_y_third_deriv_omega0 / 6)))
  else
    let delta_theta := omega * delta_t
    let theta1 := theta0 + delta_theta
    let sin_theta0 := ctx.sin theta0
    let sin_theta1 := ctx.sin theta1
    let cos_theta0 := ctx.cos theta0
    let cos_theta1 := ctx.cos theta1
    let sin_diff := sin_theta1 - sin_theta0
    let cos_diff := cos_theta1 - cos_theta0
    ((v0 * sin_diff + (a / omega) * (cos_diff + delta_theta * sin_theta1)) / omega,
     (-v0 * cos_diff + (a / omega) * (sin_diff - delta_theta * cos_theta1)) / omega)

/-- The Taylor/Maclaurin expansion of the spiral integral around `omega = 0`,
written as the spec describes it: the canonical Taylor-polynomial sum
`f(0) + f'(0)·ω + f''(0)/2·ω² + f'''(0)/6·ω³` (remainder `O(ω⁴)`), with the
derivative coefficients the source states in its comments.  This is the
spec-side definition compared against the Taylor branch of
`analytic_ship_movement_integration`. -/
def specTaylorExpansion (ctx : MathCtx) (v0 a theta0 omega delta_t : ℚ) : ℚ × ℚ :=
  let c := ctx.cos theta0
  let s := ctx.sin theta0
  let k0 := delta_t * (a * delta_t / 2 + v0)
  let k1 := delta_t ^ 2 * (a * delta_t / 3 + v0 / 2)
  let k2 := delta_t ^ 3 * (a * delta_t / 4 + v0 / 3)
  let k3 := delta_t ^ 4 * (a * delta_t / 5 + v0 / 4)
  (k0 * c + (-k1 * s) * omega + (-k2 * c) / 2 * omega ^ 2 + (k3 * s) / 6 * omega ^ 3,
   k0 * s + (k1 * c) * omega + (-k2 * s) / 2 * omega ^ 2 + (-k3 * c) / 6 * omega ^ 3)

/-- The exact trigonometric closed form of the spiral integral
`∫ (v0 + a t)·(cos(theta0 + ω t), sin(theta0 + ω t)) dt` over `[0, Δt]`,
as the spec's sympy derivation presents it.  This is the spec-side
definition compared against the exact branch of
`analytic_ship_movement_integration`. -/
def specExactForm (ctx : MathCtx) (v0 a theta0 omega delta_t : ℚ) : ℚ × ℚ :=
  let theta1 := theta0 + omega * delta_t
  let sd := ctx.sin theta1 - ctx.sin theta0
  let cd := ctx.cos theta1 - ctx.cos theta0
  ((v0 * sd + (a / omega) * (cd + omega * delta_t * ctx.sin theta1)) / omega,
   (-v0 * cd + (a / omega) * (sd - omega * delta_t * ctx.cos theta1)) / omega)

/-! ## `math_utils.py`: `find_first_leq_zero` -/

/-- The iteration body of the inner `newton_root` loop of
`find_first_leq_zero` (math_utils.py), with the loop's `max_iter` bound as
fuel.  `Sum.inl` is an early `return` from inside the loop; `Sum.inr` is
falling out of the loop with the current iterate.  In the `ℚ` model the
oracle `f` never produces NaN, so `isnan(dfx)` is `False`. -/
def newtonRootAux (f : ℚ → ℚ × ℚ × ℚ) (tol x0 x1 : ℚ) : ℕ → ℚ → ℚ ⊕ ℚ
  | 0, x => .inr x
  | n + 1, x =>
    let fx := (f x).1
    let dfx := (f x).2.1
    if |fx| < tol then .inl x
    else if dfx = 0 then newtonRootAux f tol x0 x1 n ((x + x1) / 2)
    else
      let x_new0 := x - fx / dfx
      -- Clamp to [x0, x1]
      let x_new := if ¬(x0 ≤ x_new0 ∧ x_new0 ≤ x1) then
          (if fx > 0 then (x + x1) / 2 else (x0 + x) / 2)
        else x_new0
      if |x_new - x| < tol then .inl x_new
      else newtonRootAux f tol x0 x1 n x_new

/-- `newton_root(f, x0, x1)`: Newton's method for `f(x) == 0`, with the
end-of-loop fallback that checks `x`, `x0` and `x1` and otherwise returns
NaN (modelled by `none`). -/
def newtonRoot (f : ℚ → ℚ × ℚ × ℚ) (tol : ℚ) (max_iter : ℕ) (x0 x1 : ℚ) :
    Option ℚ :=
  match newtonRootAux f tol x0 x1 max_iter x0 with
  | .inl v => some v
  | .inr x =>
    -- Fallback, check both ends
    if |(f x).1| < tol ∨ (f x).1 ≤ 0 then some x
    else if |(f x0).1| < tol ∨ (f x0).1 ≤ 0 then some x0
    else if |(f x1).1| < tol ∨ (f x1).1 ≤ 0 then some x1
    else none

/-- The iteration body of the inner `newton_minimum` loop of
`find_first_leq_zero` (math_utils.py): Newton's method on the derivative,
with the loop's `max_iter` bound as fuel; running out of fuel returns the
current iterate. -/
def newtonMinimumAux (f : ℚ → ℚ × ℚ × ℚ) (tol a b : ℚ) : ℕ → ℚ → ℚ
  | 0, x => x
  | n + 1, x =>
    let dfx := (f x).2.1
    let ddfx := (f x).2.2
    if |dfx| < tol then x
    else if ddfx = 0 then newtonMinimumAux f tol a b n ((x + b) / 2)
    else
      let x_new0 := x - dfx / ddfx
      let x_new := if ¬(a ≤ x_new0 ∧ x_new0 ≤ b) then (a + x) / 2 else x_new0
      if |x_new - x| < tol then x_new
      else newtonMinimumAux f tol a b n x_new

/-- `newton_minimum(f, a, b)`: Newton's method for `f'(x) == 0`, started at
the midpoint of `[a, b]`. -/
def newtonMinimum (f : ℚ → ℚ × ℚ × ℚ) (tol : ℚ) (max_iter : ℕ) (a b : ℚ) : ℚ :=
  newtonMinimumAux f tol a b max_iter ((a + b) / 2)

/-- `find_first_leq_zero(f, a, b, tol=1e-12, max_iter=20)` (math_utils.py):
the oracle `f` returns `(f(t), f'(t), f''(t))`; NaN results are modelled by
`none`. -/
def find_first_leq_zero (f : ℚ → ℚ × ℚ × ℚ) (a b : ℚ)
    (tol : ℚ := eps12) (max_iter : ℕ := 20) : Option ℚ :=
  let fa := (f a).1
  let da := (f a).2.1
  if fa ≤ 0 then some a
  else
    let fb := (f b).1
    let db := (f b).2.1
    if fb ≤ 0 then
      -- Bracket [a, b]: Use Newton's method
      newtonRoot f tol max_iter a b
    else if da < 0 ∧ db > 0 then
      let t_min := newtonMinimum f tol max_iter a b
      if (f t_min).1 ≤ 0 then
        -- Root must be to left of minimum
        newtonRoot f tol max_iter a t_min
      else none
    else none

/-! ## `asteroid.py`: the `Asteroid` sprite -/

/-- State of an `Asteroid` (`asteroid.py`): size, the derived radius and
mass, position, velocity, and the cosmetic rotation fields. -/
structure Asteroid where
  size : ℤ
  num_children : ℤ
  radius : ℚ
  mass : ℚ
  x : ℚ
  y : ℚ
  vx : ℚ
  vy : ℚ
  angle : ℚ
  turnrate : ℚ

/-- The random draws `Asteroid.__init__` may consume: the `random.random()`
outcomes backing the optional angle and speed defaults, and the
`random.uniform(0, 360)` / `random.uniform(-100, 100)` outcomes stored as
the cosmetic rotation angle and spin rate. -/
structure AsteroidDraws where
  rand_angle : ℚ
  rand_speed : ℚ
  uniform_angle : ℚ
  uniform_turnrate : ℚ

/-- `Asteroid.__init__(position, speed=None, angle=None, size=None)`
(asteroid.py).  The Python guard is `if size:`, which falls through to the
default `self.size = 4` both when `size` is `None` and when it is `0`
(zero is falsy); a nonzero size outside `1..4` raises `ValueError`.
`math.radians(angle)` is `angle * pi / 180`. -/
def Asteroid.init (position : ℚ × ℚ) (speed angle : Option ℚ)
    (size : Option ℤ) (ctx : MathCtx) (draws : AsteroidDraws) :
    Except String Asteroid :=
  let chosen_size : Except String ℤ :=
    match size with
    | some s =>
      if s ≠ 0 then
        if 1 ≤ s ∧ s ≤ 4 then .ok s
        else .error "Asteroid size can only be between 1 and 4"
      else .ok 4
    | none => .ok 4
  chosen_size.map fun (sz : ℤ) =>
    -- Set max speed based off of scaling factor
    let speed_scaler : ℚ := 2 + (4 - (sz : ℚ)) / 4
    let max_speed : ℚ := 60 * speed_scaler
    let radius : ℚ := (sz : ℚ) * 8
    let mass : ℚ := (1/4) * ctx.pi * radius * radius
    let starting_angle_rad : ℚ :=
      match angle with
      | some ang => ang * ctx.pi / 180
      | none => draws.rand_angle * 2 * ctx.pi
    let starting_speed : ℚ :=
      match speed with
      | some sp => sp
      | none => draws.rand_speed * max_speed - max_speed / 2
    { size := sz
      num_children := 3
      radius := radius
      mass := mass
      x := position.1
      y := position.2
      vx := starting_speed * ctx.cos starting_angle_rad
      vy := starting_speed * ctx.sin starting_angle_rad
      angle := draws.uniform_angle
      turnrate := draws.uniform_turnrate }

/-- `Asteroid.update(delta_time, map_size)` (asteroid.py): drift by the
velocity with a toroidal modulo wrap on each axis, and advance the cosmetic
rotation angle. -/
def Asteroid.update (ast : Asteroid) (delta_time map_w map_h : ℚ) : Asteroid :=
  { ast with
    x := pymod (ast.x + ast.vx * delta_time) map_w
    y := pymod (ast.y + ast.vy * delta_time) map_h
    angle := ast.angle + delta_time * ast.turnrate }

/-- The impactor of `Asteroid.destruct`: the source dispatches with
`isinstance(impactor, Mine)`; a `Bullet` or `Ship` impactor is only read
through its `velocity` and `mass` attributes. -/
inductive Impactor where
  | mineHit (m : Mine)
  | bodyHit (velocity : ℚ × ℚ) (mass : ℚ)

/-- `Mine.calculate_blast_force(dist, obj)` (mines.py). -/
def Mine.calculate_blast_force (m : Mine) (dist : ℚ) (obj_radius : ℚ) : ℚ :=
  (1 - dist / (m.blast_radius + obj_radius)) * m.blast_pressure * 2 * obj_radius

/-- `Asteroid.destruct(impactor, random_ast_split)` (asteroid.py): spawn the
child asteroids.  `r1`, `r2` model the two `random.random()` split-angle
draws; `child_draws i` models the fresh `random` draws consumed by the
`i`-th child's constructor (the children pass explicit `speed` and `angle`,
so only the two cosmetic `uniform` draws are consumed).
`math.degrees(math.atan2(vfy, vfx))` is `atan2 vfy vfx * 180 / pi`. -/
def Asteroid.destruct (ast : Asteroid) (impactor : Impactor)
    (random_ast_split : Bool) (ctx : MathCtx) (r1 r2 : ℚ)
    (child_draws : ℕ → AsteroidDraws) : Except String (List Asteroid) :=
  let split_angle_bound : ℚ := 30
  if ast.size ≠ 1 then
    -- (vfx, vfy, speed of the children, possibly widened split bound)
    let data : ℚ × ℚ × ℚ × ℚ :=
      match impactor with
      | .mineHit m =>
        let delta_x := m.position.1 - ast.x
        let delta_y := m.position.2 - ast.y
        let dist := ctx.sqrt (delta_x * delta_x + delta_y * delta_y)
        let F := m.calculate_blast_force dist ast.radius
        let acc := F / ast.mass
        if dist ≠ 0 then
          let cos_theta := (ast.x - m.position.1) / dist
          let sin_theta := (ast.y - m.position.2) / dist
          let vfx := ast.vx + acc * cos_theta
          let vfy := ast.vy + acc * sin_theta
          (vfx, vfy, ctx.sqrt (vfx * vfx + vfy * vfy), split_angle_bound)
        else
          let vfx := ast.vx
          let vfy := ast.vy
          (vfx, vfy, ctx.sqrt (vfx * vfx + vfy * vfy + acc * acc),
           split_angle_bound * 8)
      | .bodyHit ivel imass =>
        let vfx := (1 / (imass + ast.mass)) * (imass * ivel.1 + ast.mass * ast.vx)
        let vfy := (1 / (imass + ast.mass)) * (imass * ivel.2 + ast.mass * ast.vy)
        (vfx, vfy, ctx.sqrt (vfx * vfx + vfy * vfy), split_angle_bound)
    let vfx := data.1
    let vfy := data.2.1
    let v := data.2.2.1
    let bound := data.2.2.2
    -- Calculate angle of center asteroid for split (degrees)
    let theta := ctx.atan2 vfy vfx * 180 / ctx.pi
    let angles : List ℚ :=
      if random_ast_split then
        [theta + bound * r1, theta, theta - bound * r2]
      else
        let angle_offset := bound / 2
        [theta + angle_offset, theta, theta - angle_offset]
    (angles.enum).mapM fun ia =>
      Asteroid.init (ast.x, ast.y) (some v) (some ia.2) (some (ast.size - 1))
        ctx (child_draws ia.1)
  else
    .ok []

/-! ## `ship.py`: the kinematic part of `Ship.update` -/

/-- The physical constants `Ship.__init__` assigns to every ship. -/
def thrust_range : ℚ × ℚ := (-480, 480)

/-- Turn-rate range constant of `Ship.__init__` (degrees per second). -/
def turn_rate_range : ℚ × ℚ := (-180, 180)

/-- `self.max_speed` constant of `Ship.__init__` (meters per second). -/
def ship_max_speed : ℚ := 240

/-- `self.drag` constant of `Ship.__init__` (m/s²). -/
def ship_drag : ℚ := 80

/-- The kinematic state of a `Ship` that `Ship.update` reads and writes:
position, signed scalar speed, heading (degrees) and the derived velocity
vector. -/
structure ShipKin where
  x : ℚ
  y : ℚ
  speed : ℚ
  heading : ℚ
  vx : ℚ
  vy : ℚ

/-- The controller-assigned command fields a `Ship.update` call consumes. -/
structure ShipCmd where
  thrust : ℚ
  turn_rate : ℚ

/-- The kinematic portion of `Ship.update(delta_time, map_size)` (ship.py):
thrust/turn-rate bounds clamping, drag, the split of the frame into one or
two constant-acceleration integration phases (speed reaching zero under
net deceleration, or reaching the speed cap), the final floating-point
speed clamp, the toroidal position wrap, and the heading wrap to
`[0, 360)`.  Firing, mine deployment and the cooldown timers touch no
kinematic field and are omitted; `integration_initial_states` is a replay
log for the collision detector and is not modelled. -/
def shipUpdateKin (ctx : MathCtx) (s : ShipKin) (cmd : ShipCmd)
    (delta_time map_w map_h : ℚ) : ShipKin :=
  -- Bounds check the thrust
  let thrust :=
    if cmd.thrust < thrust_range.1 ∨ cmd.thrust > thrust_range.2 then
      min (max thrust_range.1 cmd.thrust) thrust_range.2
    else cmd.thrust
  -- Bounds check the turn rate
  let turn_rate :=
    if cmd.turn_rate < turn_rate_range.1 ∨ cmd.turn_rate > turn_rate_range.2 then
      min (max turn_rate_range.1 cmd.turn_rate) turn_rate_range.2
    else cmd.turn_rate
  let initial_speed := s.speed
  let theta0 := s.heading * ctx.pi / 180
  let is_moving := |initial_speed| > eps12
  -- Get direction of motion for drag
  let motion_sign : ℚ :=
    if is_moving then copysignQ 1 initial_speed
    else if |thrust| > eps12 then copysignQ 1 thrust else 0
  -- Drag will always oppose the direction of motion
  let drag_acc := -ship_drag * motion_sign
  let net_acc := thrust + drag_acc
  let x0 := s.x
  let y0 := s.y
  let omega := turn_rate * ctx.pi / 180
  -- Determine if we need to break the frame into two parts:
  -- `some (t1, v1, accel_phase2)`, or `none` when t1 stays `None`
  let phase : Option (ℚ × ℚ × ℚ) :=
    if is_moving ∧ net_acc * initial_speed < 0 then
      -- Case 1: drag will bring us to a stop
      let t_to_stop := -initial_speed / net_acc
      if 0 ≤ t_to_stop ∧ t_to_stop < delta_time then
        some (t_to_stop, 0,
          if |drag_acc| ≤ |thrust| then thrust - drag_acc else 0)
      else none
    else
      -- Case 2: acceleration would exceed max speed
      let max_speed := copysignQ ship_max_speed (initial_speed + net_acc * delta_time)
      if net_acc ≠ 0 then
        let to_max := (max_speed - initial_speed) / net_acc
        if 0 ≤ to_max ∧ to_max < delta_time then
          some (to_max, max_speed, 0)
        else none
      else none
  -- (new x, new y, speed after integration)
  let moved : ℚ × ℚ × ℚ :=
    match phase with
    | none =>
      -- No exceeding limit within this step: single-phase integration
      let d := analytic_ship_movement_integration ctx initial_speed net_acc theta0 omega delta_time
      (pymod (x0 + d.1) map_w, pymod (y0 + d.2) map_h,
       initial_speed + net_acc * delta_time)
    | some (t1, v1, accel_phase2) =>
      if |t1 - delta_time| < eps12 then
        let d := analytic_ship_movement_integration ctx initial_speed net_acc theta0 omega delta_time
        (pymod (x0 + d.1) map_w, pymod (y0 + d.2) map_h,
         initial_speed + net_acc * delta_time)
      else if |t1| < eps12 then
        -- The first period is just zero length, so just skip it
        let d := analytic_ship_movement_integration ctx v1 accel_phase2 theta0 omega delta_time
        (pymod (x0 + d.1) map_w, pymod (y0 + d.2) map_h, v1)
      else
        -- 2-phase integration splitting the frame into two periods
        let d1 := analytic_ship_movement_integration ctx initial_speed net_acc theta0 omega t1
        let theta1 := theta0 + omega * t1
        let t2 := delta_time - t1
        let d2 := analytic_ship_movement_integration ctx v1 accel_phase2 theta1 omega t2
        (pymod (x0 + d1.1 + d2.1) map_w, pymod (y0 + d1.2 + d2.2) map_h,
         v1 + accel_phase2 * t2)
  -- Clamp speed after acceleration (floating-point safety clamp)
  let speed1 :=
    if |moved.2.2| > ship_max_speed then copysignQ ship_max_speed moved.2.2
    else if |moved.2.2| ≤ eps12 then 0
    else moved.2.2
  -- Update the angle based on turning rate; keep it within [0, 360.0)
  let heading1 := pymod (s.heading + turn_rate * delta_time) 360
  -- Use speed magnitude to get velocity vector
  let rad_heading := heading1 * ctx.pi / 180
  { x := moved.1
    y := moved.2.1
    speed := speed1
    heading := heading1
    vx := ctx.cos rad_heading * speed1
    vy := ctx.sin rad_heading * speed1 }

/-! ## `kessler_game.py`: chronological ship collision resolution -/

/-- The mutable lists the collision phase of `KesslerGame.run` threads
through its ship-asteroid and ship-ship resolution loops:
`ships_exempt_from_further_damage`, `asteroids_to_cull`, and (for
verification) the chronological log of `ship.destruct()` calls issued. -/
structure CollisionResState where
  ships_exempt : List ℕ
  asteroids_to_cull : List ℕ
  destructed : List ℕ

/-- The ship-asteroid resolution loop of `KesslerGame.run`
(`for _, ship_idx, ast_idx in ship_asteroid_collisions:`): each pair is
skipped when its ship is already exempt or its asteroid already culled;
otherwise the asteroid is destructed, the ship is destructed, and both are
recorded.  The collision list is already sorted by collision time; the
times do not influence the resolution itself. -/
def resolveShipAsteroid (st : CollisionResState) :
    List (ℚ × ℕ × ℕ) → CollisionResState
  | [] => st
  | (_, ship_idx, ast_idx) :: rest =>
    if ship_idx ∈ st.ships_exempt ∨ ast_idx ∈ st.asteroids_to_cull then
      -- This pair is invalid because one or two of them are already hit
      resolveShipAsteroid st rest
    else
      resolveShipAsteroid
        { ships_exempt := st.ships_exempt ++ [ship_idx]
          asteroids_to_cull := st.asteroids_to_cull ++ [ast_idx]
          destructed := st.destructed ++ [ship_idx] } rest

/-- The ship-ship resolution loop of `KesslerGame.run`
(`for _, ship1_idx, ship2_idx in ship_ship_collisions:`): a pair is skipped
when either ship is already exempt (including ships exempted by the
ship-asteroid pass of the same frame); otherwise both ships are destructed
and both become exempt. -/
def resolveShipShip (st : CollisionResState) :
    List (ℚ × ℕ × ℕ) → CollisionResState
  | [] => st
  | (_, ship1_idx, ship2_idx) :: rest =>
    if ship1_idx ∈ st.ships_exempt ∨ ship2_idx ∈ st.ships_exempt then
      resolveShipShip st rest
    else
      resolveShipShip
        { st with
          ships_exempt := st.ships_exempt ++ [ship1_idx, ship2_idx]
          destructed := st.destructed ++ [ship1_idx, ship2_idx] } rest

/-- One frame's ship-damage resolution: the ship-asteroid pass starts from
the empty `ships_exempt_from_further_damage` list and the ship-ship pass
continues with the state the first pass left behind (the exempt list is not
reset between the two passes). -/
def resolveFrameShipDamage (sa ss : List (ℚ × ℕ × ℕ)) : CollisionResState :=
  resolveShipShip (resolveShipAsteroid ⟨[], [], []⟩ sa) ss

/-! ## Concrete instances for witness evaluations -/

/-- A concrete math context used only to evaluate the theorems below at
specific inputs (the theorems themselves hold for every context). -/
def ctx0 : MathCtx :=
  { pi := 355 / 113
    sqrt := fun q => q
    cos := fun q => q
    sin := fun q => q
    atan2 := fun y x => y + x }

/-- A concrete draw record for witness evaluations. -/
def draws0 : AsteroidDraws :=
  { rand_angle := 0, rand_speed := 0, uniform_angle := 0, uniform_turnrate := 0 }

/-- A W-shaped derivative oracle `t ↦ ((t²-1)² - 1/2, 4t³-4t, 12t²-4)`
(exact value, first and second derivative).  On `[-2, 2]` it is positive at
both endpoints with a negative derivative at `-2` and a positive one at
`2`, dips below zero near `t = ±1`, yet has a local maximum at the interval
midpoint `t = 0` where Newton's minimum search stalls. -/
def doubleDipOracle : ℚ → ℚ × ℚ × ℚ := fun t =>
  ((t ^ 2 - 1) ^ 2 - 1 / 2, 4 * t ^ 3 - 4 * t, 12 * t ^ 2 - 4)

/-!
# Theorems

Everything from here on is a statement about the definitions above.
-/

/-- Python float `%` with a positive modulus is nonnegative. -/
theorem pymod_nonneg (a : ℚ) {m : ℚ} (hm : 0 < m) : 0 ≤ pymod a m := by
  have h : pymod a m = m * Int.fract (a / m) := by
    unfold pymod Int.fract
    field_simp
  rw [h]
  exact mul_nonneg hm.le (Int.fract_nonneg _)

/-- Python float `%` with a positive modulus is below the modulus. -/
theorem pymod_lt (a : ℚ) {m : ℚ} (hm : 0 < m) : pymod a m < m := by
  have h : pymod a m = m * Int.fract (a / m) := by
    unfold pymod Int.fract
    field_simp
  rw [h]
  calc m * Int.fract (a / m) < m * 1 := by
        exact mul_lt_mul_of_pos_left (Int.fract_lt_one _) hm
    _ = m := mul_one m

/-- C4: the claim says a mine's position stays unchanged across
`Mine.update` (mines are stationary) and that only the countdown and the
detonating flag change.  Evaluating `Mine.update` at a mine constructed at
`(0,0)` with velocity `(1,0)` and `delta_time = 1/30`: the countdown drops
by `delta_time` and the mine does not detonate as described, but the
position moves to `(1/30, 0)` — `Mine.update` advances the position by the
velocity, so a mine with a nonzero velocity is not stationary. -/
theorem mine_update_moves_position :
    ((Mine.init (0, 0) (1, 0)).update (1/30)).position = (1/30, 0) ∧
    ((Mine.init (0, 0) (1, 0)).update (1/30)).position ≠ (Mine.init (0, 0) (1, 0)).position ∧
    ((Mine.init (0, 0) (1, 0)).update (1/30)).countdown_timer = 3 - 1/30 ∧
    ((Mine.init (0, 0) (1, 0)).update (1/30)).detonating = false := by
  refine ⟨?_, ?_, ?_, ?_⟩ <;> norm_num [Mine.init, Mine.update, eps15]

/-- C3 (counterexample): a frame state with one remaining asteroid, a
single live ship holding unlimited bullets (`bullets_remaining == -1`) and
no mines, nothing in flight, and a scenario requesting ammo-based stopping
is assigned the stop reason `out_of_bullets`, because the check tests
`not sum(bullets_remaining) > 0` and the sum is `-1`.  The live ship holds
unlimited ammo, refuting the claim that `OutOfBullets` is set only when
every live ship is out of ammo. -/
theorem out_of_bullets_fires_with_unlimited_ammo :
    checkStopConditions 1 [⟨-1, 0⟩] 0 0 true 0 100 = .out_of_bullets ∧
    (⟨-1, 0⟩ : ShipAmmo) ∈ [(⟨-1, 0⟩ : ShipAmmo)] ∧
    (⟨-1, 0⟩ : ShipAmmo).bullets_remaining = -1 := by
  refine ⟨?_, by decide, by decide⟩
  norm_num [checkStopConditions]

/-- C3 (amended): the scheduler sets `out_of_bullets` only when the live
ships' `bullets_remaining` counters sum to at most `0`, their
`mines_remaining` counters sum to exactly `0`, no bullets or mines are in
flight, and the scenario requests ammo-based stopping (and the
higher-priority asteroid/ship conditions did not fire).  Because the check
sums the signed counters, a live ship with unlimited ammo
(`bullets_remaining == -1`) can still trigger it. -/
theorem out_of_bullets_only_when_sums_exhausted
    (numAsteroids : ℕ) (liveships : List ShipAmmo) (numBullets numMines : ℕ)
    (stop_if_no_ammo : Bool) (sim_time time_limit : ℚ)
    (h : checkStopConditions numAsteroids liveships numBullets numMines
          stop_if_no_ammo sim_time time_limit = .out_of_bullets) :
    numAsteroids ≠ 0 ∧
    (liveships.map (·.bullets_remaining)).sum ≤ 0 ∧
    (liveships.map (·.mines_remaining)).sum = 0 ∧
    numBullets = 0 ∧ numMines = 0 ∧ stop_if_no_ammo = true := by
  unfold checkStopConditions at h
  split_ifs at h with h1 h2 h3 h4
  obtain ⟨hsum, hmines, hflight, hflag⟩ := h3
  push_neg at hflight
  exact ⟨h1, le_of_not_lt hsum, hmines, by omega, by omega, hflag⟩

/-- C3 (amended, other direction at a concrete shape): when every live ship
is literally out of ammo (`bullets_remaining = 0` and `mines_remaining = 0`
for each), asteroids remain, at least one ship is live, nothing is in
flight and the scenario requests ammo-based stopping, the reason is
`out_of_bullets`. -/
theorem out_of_bullets_when_all_out
    (numAsteroids : ℕ) (liveships : List ShipAmmo)
    (sim_time time_limit : ℚ)
    (hA : numAsteroids ≠ 0) (hL : liveships ≠ [])
    (hz : ∀ s ∈ liveships, s.bullets_remaining = 0 ∧ s.mines_remaining = 0) :
    checkStopConditions numAsteroids liveships 0 0 true sim_time time_limit =
      .out_of_bullets := by
  have hb : (liveships.map (·.bullets_remaining)).sum = 0 := by
    rw [List.sum_eq_zero]
    intro x hx
    obtain ⟨s, hs, rfl⟩ := List.mem_map.mp hx
    exact (hz s hs).1
  have hm : (liveships.map (·.mines_remaining)).sum = 0 := by
    rw [List.sum_eq_zero]
    intro x hx
    obtain ⟨s, hs, rfl⟩ := List.mem_map.mp hx
    exact (hz s hs).2
  unfold checkStopConditions
  rw [if_neg hA, if_neg (by simp [hL]), if_pos ⟨by omega, hm, by omega, rfl⟩]

/-- C9 (counterexample): constructing an `Asteroid` with `size = 0` does
not fail; the Python guard `if size:` treats the falsy `0` like "no size
given" and silently produces the default size-4 asteroid. -/
theorem asteroid_size_zero_is_silently_accepted :
    (Asteroid.init (0, 0) none none (some 0) ctx0 draws0).map Asteroid.size =
      .ok 4 := by
  rfl

/-- C9 (amended): a nonzero size outside `{1,2,3,4}` passed to the
`Asteroid` constructor raises `ValueError` at construction time; `size = 0`
is the single out-of-range value that instead falls into the default
size-4 branch (Python truthiness). -/
theorem asteroid_invalid_nonzero_size_errors
    (position : ℚ × ℚ) (speed angle : Option ℚ) (s : ℤ) (ctx : MathCtx)
    (draws : AsteroidDraws) (h0 : s ≠ 0) (hout : s < 1 ∨ 4 < s) :
    Asteroid.init position speed angle (some s) ctx draws =
      .error "Asteroid size can only be between 1 and 4" := by
  have hr : ¬(1 ≤ s ∧ s ≤ 4) := by omega
  simp [Asteroid.init, h0, hr]
  rfl

/-- C7: `solve_quadratic` handles the degenerate cases as specified —
`a=0,b=0,c=0` gives `(0,0)`; `a=0,b=0,c≠0` gives NaN (`none`);
`a=0,b≠0` gives the double root `-c/b` repeated; `a≠0` with negative
discriminant gives NaN (`none`) — and every real result pair is in
ascending order, for every square-root function. -/
theorem solve_quadratic_cases (sqrtFn : ℚ → ℚ) (a b c : ℚ) :
    (a = 0 → b = 0 → c = 0 → solve_quadratic sqrtFn a b c = some (0, 0)) ∧
    (a = 0 → b = 0 → c ≠ 0 → solve_quadratic sqrtFn a b c = none) ∧
    (a = 0 → b ≠ 0 → solve_quadratic sqrtFn a b c = some (-c / b, -c / b)) ∧
    (a ≠ 0 → b * b - 4 * a * c < 0 → solve_quadratic sqrtFn a b c = none) ∧
    (∀ x y, solve_quadratic sqrtFn a b c = some (x, y) → x ≤ y) := by
  refine ⟨?_, ?_, ?_, ?_, ?_⟩
  · intro h1 h2 h3
    simp [solve_quadratic, h1, h2, h3]
  · intro h1 h2 h3
    simp [solve_quadratic, h1, h2, h3]
  · intro h1 h2
    simp [solve_quadratic, h1, h2]
  · intro h1 h2
    simp [solve_quadratic, h1, h2]
  · intro x y h
    simp only [solve_quadratic] at h
    split_ifs at h
    all_goals
      first
        | exact Option.noConfusion h
        | (simp only [Option.some.injEq, Prod.mk.injEq] at h
           obtain ⟨hx, hy⟩ := h
           subst hx
           subst hy
           linarith)

/-- C7 (witness): the theorem evaluated at `a = 0, b = 2, c = 4` returns
the double root `-2` repeated. -/
theorem solve_quadratic_cases_witness :
    solve_quadratic (fun q => q) 0 2 4 = some (-4 / 2, -4 / 2) :=
  (solve_quadratic_cases (fun q => q) 0 2 4).2.2.1 rfl (by norm_num)

/-- C6: `analytic_ship_movement_integration` returns `(0,0)` whenever
`|delta_t| < 1e-12`; otherwise for `|omega| < 0.15` it evaluates the
Taylor/Maclaurin expansion of the spiral integral around `omega = 0`
(the degree-3 polynomial whose truncation error is of fourth order in
`omega`, here written as the canonical Taylor sum `specTaylorExpansion`),
and otherwise it evaluates the exact trigonometric closed form
`specExactForm`. -/
theorem analytic_integration_branches (ctx : MathCtx)
    (v0 a theta0 omega delta_t : ℚ) :
    (|delta_t| < eps12 →
      analytic_ship_movement_integration ctx v0 a theta0 omega delta_t = (0, 0)) ∧
    (¬|delta_t| < eps12 → |omega| < 3/20 →
      analytic_ship_movement_integration ctx v0 a theta0 omega delta_t =
        specTaylorExpansion ctx v0 a theta0 omega delta_t) ∧
    (¬|delta_t| < eps12 → ¬|omega| < 3/20 →
      analytic_ship_movement_integration ctx v0 a theta0 omega delta_t =
        specExactForm ctx v0 a theta0 omega delta_t) := by
  refine ⟨?_, ?_, ?_⟩
  · intro h1
    simp only [analytic_ship_movement_integration, if_pos h1]
  · intro h1 h2
    simp only [analytic_ship_movement_integration, specTaylorExpansion,
      if_neg h1, if_pos h2]
    rw [Prod.mk.injEq]
    constructor <;> ring
  · intro h1 h2
    simp only [analytic_ship_movement_integration, specExactForm,
      if_neg h1, if_neg h2]

/-- C6 (witness): the theorem evaluated at concrete inputs in each of the
three branches. -/
theorem analytic_integration_branches_witness :
    analytic_ship_movement_integration ctx0 5 2 1 7 0 = (0, 0) ∧
    analytic_ship_movement_integration ctx0 5 2 1 (1/10) 1 =
      specTaylorExpansion ctx0 5 2 1 (1/10) 1 ∧
    analytic_ship_movement_integration ctx0 5 2 1 3 1 =
      specExactForm ctx0 5 2 1 3 1 :=
  ⟨(analytic_integration_branches ctx0 5 2 1 7 0).1
     (by rw [abs_zero]; norm_num [eps12]),
   (analytic_integration_branches ctx0 5 2 1 (1/10) 1).2.1
     (by rw [abs_one]; norm_num [eps12])
     (by rw [abs_of_nonneg (by norm_num : (0:ℚ) ≤ 1/10)]; norm_num),
   (analytic_integration_branches ctx0 5 2 1 3 1).2.2
     (by rw [abs_one]; norm_num [eps12])
     (by rw [abs_of_nonneg (by norm_num : (0:ℚ) ≤ 3)]; norm_num)⟩

/-- Evaluation of the W-shaped oracle at the left endpoint `-2`. -/
theorem doubleDipOracle_left : doubleDipOracle (-2) = (17/2, -24, 44) := by
  norm_num [doubleDipOracle]

/-- Evaluation of the W-shaped oracle at the right endpoint `2`. -/
theorem doubleDipOracle_right : doubleDipOracle 2 = (17/2, 24, 44) := by
  norm_num [doubleDipOracle]

/-- Evaluation of the W-shaped oracle at the interval midpoint `0`
(a local maximum with value `1/2 > 0` and derivative `0`). -/
theorem doubleDipOracle_mid : doubleDipOracle 0 = (1/2, 0, -4) := by
  norm_num [doubleDipOracle]

/-- Newton's minimum search on the W-shaped oracle over `[-2, 2]` stalls
immediately at the midpoint `0`, where the derivative is exactly zero. -/
theorem newtonMinimum_doubleDip_stalls :
    newtonMinimum doubleDipOracle eps12 20 (-2) 2 = 0 := by
  have h20 : (20 : ℕ) = 19 + 1 := rfl
  rw [newtonMinimum, show ((-2 : ℚ) + 2) / 2 = 0 by norm_num, h20,
    newtonMinimumAux]
  norm_num [doubleDipOracle_mid, eps12]

/-- C5 (counterexample): on the honest W-shaped oracle
`t ↦ (t²-1)² - 1/2` over `[-2, 2]` (positive at both endpoints, derivative
negative at `-2` and positive at `2`), `find_first_leq_zero` returns NaN
(`none`) although `t = 1 ∈ [-2, 2]` satisfies `f(1) = -1/2 ≤ 0`: the
interior minimum search runs Newton from the midpoint, which is a local
maximum with zero derivative, finds `f(0) = 1/2 > 0` and gives up.  This
refutes the claim that the function returns the smallest `t ∈ [a,b]` with
`f(t) ≤ 0` whenever one exists. -/
theorem find_first_leq_zero_misses_dip :
    find_first_leq_zero doubleDipOracle (-2) 2 = none ∧
    (-2 : ℚ) ≤ 1 ∧ (1 : ℚ) ≤ 2 ∧ (doubleDipOracle 1).1 ≤ 0 := by
  refine ⟨?_, by norm_num, by norm_num, by norm_num [doubleDipOracle]⟩
  rw [find_first_leq_zero]
  norm_num [doubleDipOracle_left, doubleDipOracle_right,
    newtonMinimum_doubleDip_stalls, doubleDipOracle_mid]

/-- C5 (amended): when `f(a) ≤ 0`, `find_first_leq_zero` returns `a`
immediately, which is then trivially the smallest `t ∈ [a, b]` with
`f(t) ≤ 0`.  In the remaining cases the function is a Newton-based
heuristic: it can return NaN even though some `t ∈ [a, b]` with
`f(t) ≤ 0` exists (see the counterexample). -/
theorem find_first_leq_zero_left_endpoint (f : ℚ → ℚ × ℚ × ℚ)
    (a b tol : ℚ) (max_iter : ℕ) (h : (f a).1 ≤ 0) :
    find_first_leq_zero f a b tol max_iter = some a ∧
    ∀ t, a ≤ t → t ≤ b → (f t).1 ≤ 0 → a ≤ t := by
  refine ⟨?_, fun t ht _ _ => ht⟩
  rw [find_first_leq_zero]
  simp [h]

/-- C5 (witness for the amended theorem): a constant-negative oracle over
`[0, 1]` returns the left endpoint. -/
theorem find_first_leq_zero_left_endpoint_witness :
    find_first_leq_zero (fun _ => (-1, 0, 0)) 0 1 eps12 20 = some 0 :=
  (find_first_leq_zero_left_endpoint (fun _ => (-1, 0, 0)) 0 1 eps12 20
    (by norm_num)).1

/-- The `Asteroid` constructor succeeds on every nonzero in-range size and
produces an asteroid of exactly that size. -/
theorem Asteroid.init_ok (position : ℚ × ℚ) (speed angle : Option ℚ) (s : ℤ)
    (ctx : MathCtx) (draws : AsteroidDraws) (h0 : s ≠ 0) (h1 : 1 ≤ s)
    (h4 : s ≤ 4) :
    ∃ a_, Asteroid.init position speed angle (some s) ctx draws =
      Except.ok a_ ∧ a_.size = s := by
  simp only [Asteroid.init, h0, ne_eq, not_false_eq_true, if_true,
    if_pos (And.intro h1 h4), Except.map]
  exact ⟨_, rfl, rfl⟩

/-- Mapping the child constructor of `Asteroid.destruct` over any angle
list succeeds (for a nonzero in-range child size) and yields one child of
that size per angle. -/
theorem Asteroid.init_mapM_enumFrom_ok (pos : ℚ × ℚ) (v : ℚ) (s : ℤ)
    (ctx : MathCtx) (cd : ℕ → AsteroidDraws) (h0 : s ≠ 0) (h1 : 1 ≤ s)
    (h4 : s ≤ 4) :
    ∀ (angs : List ℚ) (n : ℕ),
    ∃ cs, ((List.enumFrom n angs).mapM fun ia =>
        Asteroid.init pos (some v) (some ia.2) (some s) ctx (cd ia.1)) =
        Except.ok cs ∧ cs.length = angs.length ∧ ∀ c_ ∈ cs, c_.size = s := by
  intro angs
  induction angs with
  | nil => intro n; exact ⟨[], rfl, rfl, by simp⟩
  | cons hd tl ih =>
    intro n
    obtain ⟨cs, hcs, hlen, hsz⟩ := ih (n + 1)
    obtain ⟨a_, ha, hasz⟩ :=
      Asteroid.init_ok pos (some v) (some hd) s ctx (cd n) h0 h1 h4
    refine ⟨a_ :: cs, ?_, by simp [hlen], ?_⟩
    · simp only [List.enumFrom_cons, List.mapM_cons, ha, hcs]
      rfl
    · intro c_ hc
      rcases List.mem_cons.mp hc with rfl | hmem
      · exact hasz
      · exact hsz c_ hmem

/-- C1: for every asteroid of size in `{2,3,4}`, `Asteroid.destruct`
returns exactly 3 child asteroids, each of size exactly one less than the
parent's (in particular the child constructor never raises, so no
`size ≤ 0` asteroid is ever produced); for a size-1 asteroid it returns
the empty list.  This holds for every impactor, both split modes, every
math context and all random draws. -/
theorem asteroid_destruct_spec (ast : Asteroid) (imp : Impactor) (rs : Bool)
    (ctx : MathCtx) (r1 r2 : ℚ) (cd : ℕ → AsteroidDraws)
    (hlo : 1 ≤ ast.size) (hhi : ast.size ≤ 4) :
    (1 < ast.size →
      ∃ cs, ast.destruct imp rs ctx r1 r2 cd = Except.ok cs ∧
        cs.length = 3 ∧ ∀ c_ ∈ cs, c_.size = ast.size - 1) ∧
    (ast.size = 1 → ast.destruct imp rs ctx r1 r2 cd = Except.ok []) := by
  constructor
  · intro hgt
    have hne : ast.size ≠ 1 := by omega
    have h0 : ast.size - 1 ≠ 0 := by omega
    have h1 : 1 ≤ ast.size - 1 := by omega
    have h4 : ast.size - 1 ≤ 4 := by omega
    unfold Asteroid.destruct
    rw [if_pos hne]
    cases rs <;>
      simp only [Bool.false_eq_true, if_false, if_true, List.enum] <;>
      exact Asteroid.init_mapM_enumFrom_ok (ast.x, ast.y) _ (ast.size - 1)
        ctx cd h0 h1 h4 _ 0
  · intro h1
    unfold Asteroid.destruct
    rw [if_neg (by omega)]

/-- C1 (witness): a concrete size-3 asteroid destructed by a body impactor
yields three size-2 children, and a concrete size-1 asteroid yields none. -/
theorem asteroid_destruct_spec_witness :
    (∃ cs, Asteroid.destruct
        ⟨3, 3, 24, 576, 0, 0, 1, 0, 0, 0⟩ (.bodyHit (1, 0) 1) false
        ctx0 0 0 (fun _ => draws0) = Except.ok cs ∧
      cs.length = 3 ∧ ∀ c_ ∈ cs, c_.size = 3 - 1) ∧
    Asteroid.destruct ⟨1, 3, 8, 64, 0, 0, 1, 0, 0, 0⟩ (.bodyHit (1, 0) 1)
      false ctx0 0 0 (fun _ => draws0) = Except.ok [] :=
  ⟨(asteroid_destruct_spec ⟨3, 3, 24, 576, 0, 0, 1, 0, 0, 0⟩
      (.bodyHit (1, 0) 1) false ctx0 0 0 (fun _ => draws0)
      (by norm_num) (by norm_num)).1 (by norm_num),
   (asteroid_destruct_spec ⟨1, 3, 8, 64, 0, 0, 1, 0, 0, 0⟩
      (.bodyHit (1, 0) 1) false ctx0 0 0 (fun _ => draws0)
      (by norm_num) (by norm_num)).2 rfl⟩

/-- The final speed clamp at the end of `Ship.update` bounds every raw
post-integration speed by `max_speed`. -/
theorem speed_clamp_bound (v : ℚ) :
    |if |v| > ship_max_speed then copysignQ ship_max_speed v
      else if |v| ≤ eps12 then 0 else v| ≤ ship_max_speed := by
  have h240 : |(240 : ℚ)| = 240 := abs_of_nonneg (by norm_num)
  split_ifs with hgt hsm
  · unfold copysignQ ship_max_speed
    split_ifs with hneg
    · rw [abs_neg, abs_abs, h240]
    · rw [abs_abs, h240]
  · rw [abs_zero]
    norm_num [ship_max_speed]
  · exact le_of_not_lt hgt

/-- Every single `Ship.update` call leaves `|speed| ≤ max_speed`. -/
theorem shipUpdateKin_speed_le (ctx : MathCtx) (s : ShipKin) (cmd : ShipCmd)
    (dt w h : ℚ) :
    |(shipUpdateKin ctx s cmd dt w h).speed| ≤ ship_max_speed := by
  unfold shipUpdateKin
  dsimp only
  exact speed_clamp_bound _

/-- The position a `Ship.update` call writes is, in every integration
branch, a Python modulo of some unwrapped coordinate by the map size. -/
theorem shipUpdateKin_position_isMod (ctx : MathCtx) (s : ShipKin)
    (cmd : ShipCmd) (dt w h : ℚ) :
    (∃ A, (shipUpdateKin ctx s cmd dt w h).x = pymod A w) ∧
    (∃ B, (shipUpdateKin ctx s cmd dt w h).y = pymod B h) := by
  unfold shipUpdateKin
  dsimp only
  constructor
  · split
    · exact ⟨_, rfl⟩
    · split_ifs <;> exact ⟨_, rfl⟩
  · split
    · exact ⟨_, rfl⟩
    · split_ifs <;> exact ⟨_, rfl⟩

/-- C2: for every ship state and every nonempty sequence of `Ship.update`
calls with arbitrary (including out-of-range) thrust and turn-rate
commands, arbitrary frame times and map sizes, the resulting speed
satisfies `|speed| ≤ max_speed` — exactly, in the exact-arithmetic model
(the claim's floating-point epsilon allowance is not even needed).  Since
the command list is arbitrary, this bounds the speed after each update of
any longer sequence. -/
theorem ship_speed_clamp_invariant (ctx : MathCtx) (s0 : ShipKin)
    (cmds : List (ShipCmd × ℚ × ℚ × ℚ)) (hne : cmds ≠ []) :
    |(cmds.foldl
        (fun s c => shipUpdateKin ctx s c.1 c.2.1 c.2.2.1 c.2.2.2)
        s0).speed| ≤ ship_max_speed := by
  induction cmds generalizing s0 with
  | nil => exact absurd rfl hne
  | cons c rest ih =>
    rw [List.foldl_cons]
    rcases rest with _ | ⟨c2, r2⟩
    · simp only [List.foldl_nil]
      exact shipUpdateKin_speed_le ctx s0 c.1 c.2.1 c.2.2.1 c.2.2.2
    · apply ih
      simp

/-- C2 (witness): a single full-throttle out-of-range command from rest
leaves the speed within the cap. -/
theorem ship_speed_clamp_invariant_witness :
    |([(⟨10000, 0⟩, 1/30, 1000, 800)].foldl
        (fun s c => shipUpdateKin ctx0 s c.1 c.2.1 c.2.2.1 c.2.2.2)
        ⟨500, 400, 0, 90, 0, 0⟩).speed| ≤ ship_max_speed :=
  ship_speed_clamp_invariant ctx0 ⟨500, 400, 0, 90, 0, 0⟩
    [(⟨10000, 0⟩, 1/30, 1000, 800)] (by simp)

/-- C8: after every `Asteroid.update` and every `Ship.update` with a
positive map size, each position component lies in `[0, map_size[axis])`,
for arbitrary (arbitrarily large or negative) velocities, speeds and
commands. -/
theorem toroidal_wrap_bounds (ctx : MathCtx) (ast : Asteroid) (s : ShipKin)
    (cmd : ShipCmd) (dt w h : ℚ) (hw : 0 < w) (hh : 0 < h) :
    (0 ≤ (ast.update dt w h).x ∧ (ast.update dt w h).x < w ∧
     0 ≤ (ast.update dt w h).y ∧ (ast.update dt w h).y < h) ∧
    (0 ≤ (shipUpdateKin ctx s cmd dt w h).x ∧
     (shipUpdateKin ctx s cmd dt w h).x < w ∧
     0 ≤ (shipUpdateKin ctx s cmd dt w h).y ∧
     (shipUpdateKin ctx s cmd dt w h).y < h) := by
  obtain ⟨⟨A, hA⟩, ⟨B, hB⟩⟩ := shipUpdateKin_position_isMod ctx s cmd dt w h
  refine ⟨⟨?_, ?_, ?_, ?_⟩, ?_, ?_, ?_, ?_⟩
  · exact pymod_nonneg _ hw
  · exact pymod_lt _ hw
  · exact pymod_nonneg _ hh
  · exact pymod_lt _ hh
  · rw [hA]; exact pymod_nonneg _ hw
  · rw [hA]; exact pymod_lt _ hw
  · rw [hB]; exact pymod_nonneg _ hh
  · rw [hB]; exact pymod_lt _ hh

/-- C8 (witness): a fast asteroid and a fast ship on the default
`1000 × 800` map land inside the map after one update. -/
theorem toroidal_wrap_bounds_witness :
    (0 ≤ ((⟨4, 3, 32, 1024, 999, 799, 12345, -67890, 0, 0⟩ : Asteroid).update
        (1/30) 1000 800).x ∧
     ((⟨4, 3, 32, 1024, 999, 799, 12345, -67890, 0, 0⟩ : Asteroid).update
        (1/30) 1000 800).x < 1000 ∧
     0 ≤ ((⟨4, 3, 32, 1024, 999, 799, 12345, -67890, 0, 0⟩ : Asteroid).update
        (1/30) 1000 800).y ∧
     ((⟨4, 3, 32, 1024, 999, 799, 12345, -67890, 0, 0⟩ : Asteroid).update
        (1/30) 1000 800).y < 800) ∧
    (0 ≤ (shipUpdateKin ctx0 ⟨999, 799, 240, 0, 240, 0⟩ ⟨480, 180⟩
        (1/30) 1000 800).x ∧
     (shipUpdateKin ctx0 ⟨999, 799, 240, 0, 240, 0⟩ ⟨480, 180⟩
        (1/30) 1000 800).x < 1000 ∧
     0 ≤ (shipUpdateKin ctx0 ⟨999, 799, 240, 0, 240, 0⟩ ⟨480, 180⟩
        (1/30) 1000 800).y ∧
     (shipUpdateKin ctx0 ⟨999, 799, 240, 0, 240, 0⟩ ⟨480, 180⟩
        (1/30) 1000 800).y < 800) :=
  toroidal_wrap_bounds ctx0 ⟨4, 3, 32, 1024, 999, 799, 12345, -67890, 0, 0⟩
    ⟨999, 799, 240, 0, 240, 0⟩ ⟨480, 180⟩ (1/30) 1000 800
    (by norm_num) (by norm_num)

/-- C9 (witness for the amended theorem): size `5` is rejected with the
source's `ValueError` message. -/
theorem asteroid_invalid_nonzero_size_errors_witness :
    Asteroid.init (0, 0) none none (some 5) ctx0 draws0 =
      Except.error "Asteroid size can only be between 1 and 4" :=
  asteroid_invalid_nonzero_size_errors (0, 0) none none 5 ctx0 draws0
    (by norm_num) (by norm_num)

/-- C3 (witness for the amended theorem): a frame that stops with
`out_of_bullets` — one asteroid left, one live ship with zero ammo,
nothing in flight, ammo-based stopping requested — indeed satisfies the
sum-exhaustion conditions. -/
theorem out_of_bullets_only_when_sums_exhausted_witness :
    (1 : ℕ) ≠ 0 ∧
    ([(⟨0, 0⟩ : ShipAmmo)].map (·.bullets_remaining)).sum ≤ 0 ∧
    ([(⟨0, 0⟩ : ShipAmmo)].map (·.mines_remaining)).sum = 0 ∧
    (0 : ℕ) = 0 ∧ (0 : ℕ) = 0 ∧ true = true :=
  out_of_bullets_only_when_sums_exhausted 1 [⟨0, 0⟩] 0 0 true 0 100
    (by norm_num [checkStopConditions])

/-- Through the ship-asteroid resolution pass, the destruct log keeps at
most one entry per ship and stays inside the exempt list. -/
theorem resolveShipAsteroid_inv (l : List (ℚ × ℕ × ℕ)) :
    ∀ st : CollisionResState,
      (∀ i, st.destructed.count i ≤ 1) →
      (∀ i ∈ st.destructed, i ∈ st.ships_exempt) →
      (∀ i, (resolveShipAsteroid st l).destructed.count i ≤ 1) ∧
      (∀ i ∈ (resolveShipAsteroid st l).destructed,
        i ∈ (resolveShipAsteroid st l).ships_exempt) := by
  induction l with
  | nil => exact fun st h1 h2 => ⟨h1, h2⟩
  | cons p rest ih =>
    obtain ⟨t, sidx, aidx⟩ := p
    intro st h1 h2
    rw [resolveShipAsteroid]
    split_ifs with hc
    · exact ih st h1 h2
    · apply ih
      · intro i
        rw [List.count_append]
        by_cases hi : i = sidx
        · subst hi
          have hnot : i ∉ st.destructed := fun hmem => hc (Or.inl (h2 _ hmem))
          rw [List.count_eq_zero.mpr hnot]
          simp
        · have : List.count i [sidx] = 0 := by
            simp [List.count_singleton', hi]
          rw [this]
          simpa using h1 i
      · intro i hmem
        rcases List.mem_append.mp hmem with hmem | hmem
        · exact List.mem_append.mpr (Or.inl (h2 i hmem))
        · exact List.mem_append.mpr (Or.inr hmem)

/-- Through the ship-ship resolution pass (whose pair list, built from
`range(ship1_idx + 1, num_ships)`, never pairs a ship with itself), the
destruct log keeps at most one entry per ship and stays inside the exempt
list. -/
theorem resolveShipShip_inv (l : List (ℚ × ℕ × ℕ))
    (hl : ∀ p ∈ l, p.2.1 ≠ p.2.2) :
    ∀ st : CollisionResState,
      (∀ i, st.destructed.count i ≤ 1) →
      (∀ i ∈ st.destructed, i ∈ st.ships_exempt) →
      (∀ i, (resolveShipShip st l).destructed.count i ≤ 1) ∧
      (∀ i ∈ (resolveShipShip st l).destructed,
        i ∈ (resolveShipShip st l).ships_exempt) := by
  induction l with
  | nil => exact fun st h1 h2 => ⟨h1, h2⟩
  | cons p rest ih =>
    obtain ⟨t, s1, s2⟩ := p
    have h12 : s1 ≠ s2 := hl (t, s1, s2) (List.mem_cons_self _ _)
    have hrest : ∀ p ∈ rest, p.2.1 ≠ p.2.2 :=
      fun p hp => hl p (List.mem_cons_of_mem _ hp)
    intro st h1 h2
    rw [resolveShipShip]
    split_ifs with hc
    · exact ih hrest st h1 h2
    · push_neg at hc
      apply ih hrest
      · intro i
        rw [List.count_append]
        by_cases hi1 : i = s1
        · subst hi1
          have hnot : i ∉ st.destructed := fun hmem => hc.1 (h2 _ hmem)
          rw [List.count_eq_zero.mpr hnot]
          simp [List.count_cons, h12]
        · by_cases hi2 : i = s2
          · subst hi2
            have hnot : i ∉ st.destructed := fun hmem => hc.2 (h2 _ hmem)
            rw [List.count_eq_zero.mpr hnot]
            simp [List.count_cons, hi1, h12]
          · have : List.count i [s1, s2] = 0 := by
              simp [List.count_cons, hi1, hi2]
            rw [this]
            simpa using h1 i
      · intro i hmem
        rcases List.mem_append.mp hmem with hmem | hmem
        · exact List.mem_append.mpr (Or.inl (h2 i hmem))
        · exact List.mem_append.mpr (Or.inr hmem)

/-- C10: within one frame's collision phase, every ship index is
destructed at most once across the ship-asteroid and ship-ship passes:
the `ships_exempt_from_further_damage` list carries over from the first
pass into the second, a ship damaged by an asteroid is skipped by every
ship-ship pair, and a ship destructed in one ship-ship pair is skipped by
all later pairs.  The only assumption is the structural fact that
ship-ship pairs never pair a ship with itself (the source builds them with
`range(ship1_idx + 1, num_ships)`). -/
theorem ships_destructed_at_most_once (sa ss : List (ℚ × ℕ × ℕ))
    (hss : ∀ p ∈ ss, p.2.1 ≠ p.2.2) (i : ℕ) :
    ((resolveFrameShipDamage sa ss).destructed).count i ≤ 1 := by
  have h1 := resolveShipAsteroid_inv sa ⟨[], [], []⟩
    (fun _ => by simp) (fun _ h => by simp at h)
  have h2 := resolveShipShip_inv ss hss _ h1.1 h1.2
  exact h2.1 i

/-- C10 (witness): a frame where ship 0 is hit by an asteroid and then
appears in two ship-ship pairs destructs it exactly once. -/
theorem ships_destructed_at_most_once_witness :
    ((resolveFrameShipDamage [(-1/60, 0, 7)]
        [(-1/90, 0, 1), (-1/100, 0, 2)]).destructed).count 0 ≤ 1 :=
  ships_destructed_at_most_once [(-1/60, 0, 7)]
    [(-1/90, 0, 1), (-1/100, 0, 2)]
    (by decide) 0
